import Mathlib

/-!
Verification development for the mds-provider-api service.

The definitions below are a shallow embedding, in Lean, of the Python code of
the repository (the authentication middleware, the API-key handler, the data
transformer, and the trips/events endpoints).  Python dictionaries coming from
the warehouse are modelled as structures of optional fields; Python truthiness
is modelled explicitly; machine floats coming from the warehouse are modelled
as rationals, and the one place where transcendental float arithmetic happens
(the haversine distance) is modelled over the reals.  External library calls
with no source in the repository (ISO-8601 parsing, `uuid5`/SHA-1) are treated
as follows: timestamp parsing results travel with the raw value as an oracle
field, and `uuid5` (RFC 4122 name-based UUID over SHA-1) is implemented
concretely.

Theorems come after all definitions, one per claim about the specification.
-/

namespace MDS

/-! ## Enumerations (app/models/common.py) -/

/-- Vehicle states for delivery robots (`VehicleState` in app/models/common.py). -/
inductive VehicleState where
  | removed
  | available
  | non_operational
  | reserved
  | on_trip
  | stopped
  | non_contactable
  | missing
  | elsewhere
deriving DecidableEq, Repr

/-- Event types for delivery robots (`EventType` in app/models/common.py). -/
inductive EventType where
  | comms_lost
  | comms_restored
  | compliance_pick_up
  | decommissioned
  | not_located
  | located
  | maintenance
  | maintenance_pick_up
  | maintenance_end
  | driver_cancellation
  | order_drop_off
  | order_pick_up
  | customer_cancellation
  | provider_cancellation
  | recommission
  | reservation_start
  | reservation_stop
  | service_end
  | service_start
  | trip_end
  | trip_enter_jurisdiction
  | trip_leave_jurisdiction
  | trip_resume
  | trip_start
  | trip_pause
deriving DecidableEq, Repr

/-! ## Python value modelling -/

/-- A timestamp value as it arrives in a warehouse row: absent, a string
(carrying the result of `datetime.fromisoformat` on it as an oracle, `none`
meaning the parse raises `ValueError`), or an already-parsed `datetime`
(carrying its value in seconds and its `str()` rendering).  Times are naive
UTC seconds since the epoch, as rationals (fractional seconds allowed). -/
inductive PyTimestamp where
  | missing
  | str (raw : String) (parsed : Option ℚ)
  | dt (t : ℚ) (repr : String)
deriving DecidableEq

/-- Python truthiness of a timestamp value: `None` and the empty string are
falsy; `datetime` objects are always truthy. -/
def PyTimestamp.truthy : PyTimestamp → Bool
  | .missing => false
  | .str raw _ => raw != ""
  | .dt _ _ => true

/-- Python truthiness of an optional string (`None` and `""` are falsy). -/
def truthyStr : Option String → Bool
  | none => false
  | some s => s != ""

/-- A time value in a warehouse trip row: absent, a `datetime` (seconds), or
a plain number (seconds).  Used by `transform_trip_data_to_mds`, which
branches on `isinstance(..., datetime)`. -/
inductive PyTimeVal where
  | missing
  | dt (t : ℚ)
  | num (x : ℚ)
deriving DecidableEq

/-- Python truthiness of a trip-row time value: `None` and `0` are falsy. -/
def PyTimeVal.truthy : PyTimeVal → Bool
  | .missing => false
  | .dt _ => true
  | .num x => x != 0

/-! ## State classifier (DataTransformer.determine_vehicle_state) -/

/-- A raw robot-location row, as used by `determine_vehicle_state` and
`transform_location_to_vehicle_status` (app/services/transformers.py). -/
structure LocationRow where
  robot_id : Option String
  timestamp : PyTimestamp
  latitude : Option ℚ
  longitude : Option ℚ
deriving DecidableEq

/-- The recency if-chain at the end of `determine_vehicle_state`
(app/services/transformers.py lines 69-75), applied to
`time_diff = now - location_time` in seconds. -/
def stateFromAge (time_diff : ℚ) : VehicleState :=
  if time_diff > 3600 then .non_contactable
  else if time_diff > 300 then .non_operational
  else .available

/-- `DataTransformer.determine_vehicle_state` (app/services/transformers.py
lines 40-75).  `now` is `datetime.utcnow()` in seconds. -/
def determine_vehicle_state (location_data : LocationRow) (now : ℚ) : VehicleState :=
  match location_data.timestamp with
  | .missing => .missing
  | .str raw parsed =>
      if raw = "" then .missing
      else
        match parsed with
        | none => .non_contactable
        | some t => stateFromAge (now - t)
  | .dt t _ => stateFromAge (now - t)

/-! ## Configuration (app/config.py)

Only the settings the embedded code reads.  `PROVIDER_ID_UUID` is read by the
transformer (`settings.PROVIDER_ID_UUID`); it is modelled by its string form,
which is all the f-strings below use. -/

structure Config where
  DEBUG : Bool
  PROVIDER_ID : String
  PROVIDER_ID_UUID : String
deriving DecidableEq

/-! ## API-key handler (app/auth/api_key_handler.py) -/

/-- The value stored for one API key in `APIKeyHandler.api_keys`. -/
structure APIKeyInfo where
  provider_id : String
  permissions : List String
  active : Bool
deriving DecidableEq

/-- The in-process key store: Python dict `api_keys` as an association list. -/
abbrev APIKeyStore := List (String × APIKeyInfo)

/-- Dictionary lookup in the key store. -/
def lookupKey (store : APIKeyStore) (k : String) : Option APIKeyInfo :=
  (store.find? (fun p => p.1 == k)).map (·.2)

/-- The default keys loaded by `APIKeyHandler._load_api_keys` when no
`API_KEY_*` environment variables are set. -/
def default_api_keys : APIKeyStore :=
  [("mds_test_key_12345", ⟨"test-provider-1", ["read"], true⟩),
   ("mds_demo_key_67890", ⟨"test-provider-2", ["read"], true⟩),
   ("mds_washington_ddot_2024", ⟨"washingtonddot", ["read"], true⟩)]

/-- The `detail` payload of a FastAPI `HTTPException`: either a plain string
or a dict carrying `error` and `error_description`. -/
inductive HTTPDetail where
  | str (s : String)
  | dict (error : String) (error_description : String)
deriving DecidableEq

/-- A raised `HTTPException`. -/
structure HTTPError where
  status_code : Nat
  detail : HTTPDetail
deriving DecidableEq

/-- Successful result of `APIKeyHandler.validate_api_key`. -/
structure APIKeyAuth where
  provider_id : String
  permissions : List String
deriving DecidableEq

/-- `APIKeyHandler.validate_api_key` (app/auth/api_key_handler.py lines
87-123): empty key, unknown key and inactive key each raise a 401
`HTTPException` with a plain-string detail. -/
def validate_api_key (store : APIKeyStore) (api_key : String) :
    Except HTTPError APIKeyAuth :=
  if api_key = "" then .error ⟨401, .str "API key missing"⟩
  else
    match lookupKey store api_key with
    | none => .error ⟨401, .str "Invalid API key"⟩
    | some key_info =>
        if !key_info.active then .error ⟨401, .str "API key is inactive"⟩
        else .ok ⟨key_info.provider_id, key_info.permissions⟩

/-! ## Authentication middleware (app/auth/middleware.py) -/

/-- The `request.state.auth` dict attached by the middleware, distinguished by
its `auth_type` field. -/
inductive AuthState where
  | development (provider_id : String) (permissions : List String)
  | api_key (provider_id : String) (permissions : List String)
  | jwt (provider_id : String) (claims : List (String × String))
deriving DecidableEq

/-- Outcome of `jwt_handler.validate_token_and_extract_claims`.  The JWT
handler performs network IO (JWKS fetch), so its outcome is a parameter of the
middleware model: success, a raised `HTTPException`, or any other exception. -/
inductive JWTOutcome where
  | ok (provider_id : String) (claims : List (String × String))
  | httpError (e : HTTPError)
  | exn (msg : String)

/-- The JWT validator, as a function from the bearer token. -/
abbrev JWTValidator := String → JWTOutcome

/-- The inbound request, restricted to the fields the middleware reads. -/
structure Request where
  path : String
  method : String
  authorization : Option String
  x_api_key : Option String
deriving DecidableEq

/-- Result of `AuthMiddleware.dispatch`: either the request proceeds to
`call_next` (with the attached auth state, if any), or a JSON error response
is returned with a status code, an `error` code and an `error_description`. -/
inductive DispatchResult where
  | next (auth : Option AuthState)
  | reject (status_code : Nat) (error : String) (error_description : String)
deriving DecidableEq

/-- `self.public_endpoints` in `AuthMiddleware.__init__`. -/
def public_endpoints : List String :=
  ["/", "/health", "/docs", "/redoc", "/openapi.json"]

/-- The JSON error response the middleware builds from a caught
`HTTPException` (app/auth/middleware.py lines 82-89 and 161-168): dict
details supply the `error` and `error_description` fields, any other detail
yields the fixed code `authentication_error` with `str(detail)` as the
description. -/
def errorBody (e : HTTPError) : DispatchResult :=
  match e.detail with
  | .str s => .reject e.status_code "authentication_error" s
  | .dict err desc => .reject e.status_code err desc

/-- The middleware response for a `ValueError` raised while parsing the
Authorization header (app/auth/middleware.py lines 169-179). -/
def valueErrorResult (msg : String) : DispatchResult :=
  .reject 401 "invalid_authorization_header" ("Invalid authorization header: " ++ msg)

/-- Python `s.strip()`: drop leading and trailing whitespace. -/
def pyStrip (s : String) : String :=
  ⟨((s.data.dropWhile Char.isWhitespace).reverse.dropWhile Char.isWhitespace).reverse⟩

/-- Python `s.lower()` (ASCII case folding, which is all the middleware needs
to compare against "bearer"). -/
def pyLower (s : String) : String :=
  ⟨s.data.map Char.toLower⟩

/-- Python `s.split(" ", 1)`: split at the first space only. -/
def split_once (s : String) : List String :=
  let pre : List Char := s.data.takeWhile (fun c => c ≠ ' ')
  match s.data.dropWhile (fun c => c ≠ ' ') with
  | [] => [s]
  | _ :: rest => [⟨pre⟩, ⟨rest⟩]

/-- The JWT tail of the Authorization branch (app/auth/middleware.py lines
144-190): empty-token check, then `jwt_handler.validate_token_and_extract_claims`,
with `HTTPException`, `ValueError` and generic exception handlers. -/
def jwtStep (jwt_validate : JWTValidator) (token : String) : DispatchResult :=
  if pyStrip token = "" then valueErrorResult "Empty token in authorization header"
  else
    match jwt_validate token with
    | .ok provider_id claims => .next (some (.jwt provider_id claims))
    | .httpError e => errorBody e
    | .exn msg => .reject 500 "authentication_failed" ("Authentication failed: " ++ msg)

/-- The Authorization-header branch of `AuthMiddleware.dispatch`
(app/auth/middleware.py lines 92-190): scheme parsing, the short-opaque-token
heuristic (length < 100 and no dot) that first attempts API-key validation and
falls through to JWT on failure, and the JWT step. -/
def dispatchAuthorization (store : APIKeyStore) (jwt_validate : JWTValidator)
    (authorization : String) : DispatchResult :=
  if pyStrip authorization = "" then valueErrorResult "Empty authorization header"
  else
    match split_once authorization with
    | [scheme, token] =>
        if pyLower scheme ≠ "bearer" then
          valueErrorResult "Invalid authorization scheme. Expected \x27Bearer\x27"
        else if token.length < 100 && !(token.data.contains '.') then
          match validate_api_key store token with
          | .ok a => .next (some (.api_key a.provider_id a.permissions))
          | .error _ => jwtStep jwt_validate token
        else jwtStep jwt_validate token
    | [token] =>
        if token.length < 100 && !(token.data.contains '.') then
          match validate_api_key store token with
          | .ok a => .next (some (.api_key a.provider_id a.permissions))
          | .error _ => jwtStep jwt_validate token
        else jwtStep jwt_validate token
    | _ => valueErrorResult "Invalid authorization header format"

/-- `AuthMiddleware.dispatch` (app/auth/middleware.py lines 27-202):
public-endpoint skip, OPTIONS skip, development bypass, X-API-Key branch,
Authorization branch, final `authentication_required` rejection.
`is_testing` models `"pytest" in sys.modules`. -/
def dispatch (settings : Config) (is_testing : Bool) (store : APIKeyStore)
    (jwt_validate : JWTValidator) (request : Request) : DispatchResult :=
  if request.path ∈ public_endpoints then .next none
  else if request.method = "OPTIONS" then .next none
  else if settings.DEBUG && !is_testing && !truthyStr request.authorization
      && !truthyStr request.x_api_key then
    .next (some (.development settings.PROVIDER_ID ["read"]))
  else if truthyStr request.x_api_key then
    match validate_api_key store ((request.x_api_key).getD "") with
    | .ok a => .next (some (.api_key a.provider_id a.permissions))
    | .error e => errorBody e
  else if truthyStr request.authorization then
    dispatchAuthorization store jwt_validate ((request.authorization).getD "")
  else
    .reject 401 "authentication_required"
      "Authentication required. Provide either X-API-Key header or Authorization: Bearer <token>"

/-! ## uuid5 (Python `uuid.uuid5`, RFC 4122 name-based UUID over SHA-1)

The transformer derives every identifier with
`uuid5(NAMESPACE_DNS, name_string)`.  The hash is implemented concretely:
bytes are naturals < 256, 32-bit words are naturals reduced mod 2^32. -/

/-- UTF-8 encoding of one character, as bytes. -/
def utf8EncodeChar (c : Char) : List Nat :=
  let n := c.toNat
  if n < 128 then [n]
  else if n < 2048 then [192 + n / 64, 128 + n % 64]
  else if n < 65536 then [224 + n / 4096, 128 + n / 64 % 64, 128 + n % 64]
  else [240 + n / 262144, 128 + n / 4096 % 64, 128 + n / 64 % 64, 128 + n % 64]

/-- UTF-8 encoding of a string, as bytes. -/
def utf8Bytes (s : String) : List Nat :=
  s.data.flatMap utf8EncodeChar

/-- Reduce mod 2^32. -/
def w32 (n : Nat) : Nat := n % 4294967296

/-- Rotate a 32-bit word (given as a natural < 2^32) left by `s` bits. -/
def rotl32 (s n : Nat) : Nat :=
  (n % 2 ^ (32 - s)) * 2 ^ s + n / 2 ^ (32 - s)

/-- Number of zero bytes of SHA-1 padding for a message of `len` bytes. -/
def sha1PadLen (len : Nat) : Nat := (120 - ((len + 1) % 64)) % 64

/-- 64-bit big-endian byte rendering. -/
def bigEndian8 (n : Nat) : List Nat :=
  [n / 2 ^ 56 % 256, n / 2 ^ 48 % 256, n / 2 ^ 40 % 256, n / 2 ^ 32 % 256,
   n / 2 ^ 24 % 256, n / 2 ^ 16 % 256, n / 2 ^ 8 % 256, n % 256]

/-- 32-bit big-endian byte rendering. -/
def bigEndian4 (n : Nat) : List Nat :=
  [n / 2 ^ 24 % 256, n / 2 ^ 16 % 256, n / 2 ^ 8 % 256, n % 256]

/-- SHA-1 padding: 0x80, zeros, then the bit length as 64-bit big-endian. -/
def sha1Pad (msg : List Nat) : List Nat :=
  msg ++ [128] ++ List.replicate (sha1PadLen msg.length) 0 ++ bigEndian8 (8 * msg.length)

/-- Big-endian 32-bit words from bytes. -/
def bytesToWords : List Nat → List Nat
  | b0 :: b1 :: b2 :: b3 :: rest =>
      (((b0 * 256 + b1) * 256 + b2) * 256 + b3) :: bytesToWords rest
  | _ => []

/-- Split a byte list into 64-byte blocks. -/
def chunks64 (l : List Nat) : List (List Nat) :=
  if h : l = [] then []
  else l.take 64 :: chunks64 (l.drop 64)
termination_by l.length
decreasing_by
  simp only [List.length_drop]
  exact Nat.sub_lt (List.length_pos.mpr h) (by norm_num)

/-- Extend the 16 message words to the 80-word SHA-1 schedule. -/
def sha1Schedule (ws : Array Nat) : Array Nat :=
  (List.range 64).foldl
    (fun w _ =>
      let i := w.size
      w.push (rotl32 1 ((w.getD (i - 3) 0) ^^^ (w.getD (i - 8) 0) ^^^
        (w.getD (i - 14) 0) ^^^ (w.getD (i - 16) 0))))
    ws

/-- The SHA-1 round function. -/
def sha1F (i b c d : Nat) : Nat :=
  if i < 20 then (b &&& c) ||| ((b ^^^ 4294967295) &&& d)
  else if i < 40 then b ^^^ c ^^^ d
  else if i < 60 then (b &&& c) ||| (b &&& d) ||| (c &&& d)
  else b ^^^ c ^^^ d

/-- The SHA-1 round constants. -/
def sha1K (i : Nat) : Nat :=
  if i < 20 then 1518500249
  else if i < 40 then 1859775393
  else if i < 60 then 2400959708
  else 3395469782

/-- The five SHA-1 chaining words. -/
structure SHA1H where
  a : Nat
  b : Nat
  c : Nat
  d : Nat
  e : Nat

/-- SHA-1 compression of one 64-byte block. -/
def sha1Block (h : SHA1H) (block : List Nat) : SHA1H :=
  let w := sha1Schedule (Array.mk (bytesToWords block))
  let r := (List.range 80).foldl
    (fun s i =>
      let temp := w32 (rotl32 5 s.a + sha1F i s.b s.c s.d + s.e + sha1K i + w.getD i 0)
      SHA1H.mk temp s.a (rotl32 30 s.b) s.c s.d)
    h
  ⟨w32 (h.a + r.a), w32 (h.b + r.b), w32 (h.c + r.c), w32 (h.d + r.d), w32 (h.e + r.e)⟩

/-- SHA-1 digest (20 bytes) of a byte list. -/
def sha1 (msg : List Nat) : List Nat :=
  let r := (chunks64 (sha1Pad msg)).foldl sha1Block
    ⟨1732584193, 4023233417, 2562383102, 271733878, 3285377520⟩
  bigEndian4 r.a ++ bigEndian4 r.b ++ bigEndian4 r.c ++ bigEndian4 r.d ++ bigEndian4 r.e

/-- A UUID as its 16 bytes. -/
structure UUID where
  bytes : List Nat
deriving DecidableEq

/-- The bytes of `uuid.NAMESPACE_DNS` (6ba7b810-9dad-11d1-80b4-00c04fd430c8). -/
def namespaceDNS : List Nat :=
  [107, 167, 184, 16, 157, 173, 17, 209, 128, 180, 0, 192, 79, 212, 48, 200]

/-- Python `uuid5(namespace, name)`: first 16 bytes of
`sha1(namespace.bytes + name.encode("utf-8"))`, with the version nibble set
to 5 and the RFC 4122 variant bits set. -/
def uuid5 (ns : List Nat) (name : String) : UUID :=
  let h := sha1 (ns ++ utf8Bytes name)
  ⟨h.take 6 ++ [(h.getD 6 0 &&& 15) ||| 80, h.getD 7 0, (h.getD 8 0 &&& 63) ||| 128]
    ++ ((h.take 16).drop 9)⟩

/-! ## Identity deriver (DataTransformer, app/services/transformers.py)

Each derivation hashes an f-string; the name builders below spell out those
f-strings.  `self.provider_id` is `settings.PROVIDER_ID_UUID` (rendered by the
f-string as its string form). -/

/-- The f-string of `robot_id_to_device_id` (line 38). -/
def device_id_name (provider_id robot_id : String) : String :=
  provider_id ++ "." ++ robot_id

/-- The f-string of `_generate_trip_id` (line 353). -/
def trip_id_name (provider_id job_id : String) : String :=
  provider_id ++ ".trip." ++ job_id

/-- The f-string of `_generate_event_id` (line 360). -/
def event_id_name (provider_id robot_id event_time event_type : String) : String :=
  provider_id ++ ".event." ++ robot_id ++ "." ++ event_time ++ "." ++ event_type

/-- The f-string of the last_event id in
`transform_location_to_vehicle_status` (line 240). -/
def status_event_id_name (provider_id robot_id last_event_time : String) : String :=
  provider_id ++ ".event." ++ robot_id ++ "." ++ last_event_time

/-- The f-string of the last_telemetry id in
`transform_location_to_vehicle_status` (line 241). -/
def telemetry_id_name (provider_id robot_id last_event_time : String) : String :=
  provider_id ++ ".telemetry." ++ robot_id ++ "." ++ last_event_time

/-- `DataTransformer.robot_id_to_device_id` (lines 27-38). -/
def robot_id_to_device_id (settings : Config) (robot_id : String) : UUID :=
  uuid5 namespaceDNS (device_id_name settings.PROVIDER_ID_UUID robot_id)

/-- The Python `str()` a value renders to inside an f-string, for the values
`dict.get` hands `_generate_event_id` (default `""` when the key is absent). -/
def PyTimestamp.asPyStr : PyTimestamp → String
  | .missing => ""
  | .str raw _ => raw
  | .dt _ r => r

/-- A raw warehouse event row (app/endpoints/events.py). -/
structure EventRow where
  robot_id : Option String
  event_time : PyTimestamp
  event_type : Option String
  latitude : Option ℚ
  longitude : Option ℚ
deriving DecidableEq

/-- `DataTransformer._generate_event_id` (lines 355-360). -/
def generate_event_id (settings : Config) (event_data : EventRow) : UUID :=
  uuid5 namespaceDNS
    (event_id_name settings.PROVIDER_ID_UUID
      ((event_data.robot_id).getD "")
      (event_data.event_time).asPyStr
      ((event_data.event_type).getD ""))

/-- A raw warehouse trip row (app/endpoints/trips.py, BigQuery
`jobs_processed`). -/
structure TripRow where
  robot_id : Option String
  job_id : Option String
  id : Option String
  trip_start : PyTimeVal
  trip_end : PyTimeVal
  trip_duration_seconds : Option ℚ
  start_latitude : Option ℚ
  start_longitude : Option ℚ
  end_latitude : Option ℚ
  end_longitude : Option ℚ
  trip_distance_meters : Option ℚ
deriving DecidableEq

/-- `DataTransformer._generate_trip_id` (lines 350-353):
`job_id = trip_data.get('job_id', trip_data.get('id', ''))`. -/
def generate_trip_id (settings : Config) (trip_data : TripRow) : UUID :=
  uuid5 namespaceDNS
    (trip_id_name settings.PROVIDER_ID_UUID
      ((trip_data.job_id).getD ((trip_data.id).getD "")))

/-! ## Numeric helpers for Python conversions -/

/-- Python `int(x)` on a rational value: truncation toward zero. -/
def pyInt (q : ℚ) : ℤ := if 0 ≤ q then ⌊q⌋ else ⌈q⌉

/-- Round-half-even to an integer (the tie-breaking rule of Python `round`). -/
def roundHalfEven (q : ℚ) : ℤ :=
  let f := ⌊q⌋
  if q - f < 1 / 2 then f
  else if q - f > 1 / 2 then f + 1
  else if f % 2 = 0 then f else f + 1

/-- Python `round(x, 7)` on a rational value. -/
def pyRound7 (q : ℚ) : ℚ := (roundHalfEven (q * 10 ^ 7) : ℚ) / 10 ^ 7

/-! ## GPS and GeoJSON models (app/models/telemetry.py, app/models/common.py) -/

/-- The `GPS` pydantic model.  Optional attributes default to `None`. -/
structure GPS where
  lat : ℚ
  lng : ℚ
  altitude : Option ℚ := none
  heading : Option ℚ := none
  speed : Option ℚ := none
  horizontal_accuracy : Option ℚ := none
  vertical_accuracy : Option ℚ := none
  satellites : Option ℤ := none
deriving DecidableEq

/-- Construction of a `GPS` from coordinates, running the `lat`/`lng`
validators (app/models/telemetry.py lines 26-36); out-of-range coordinates
raise a `ValidationError`. -/
def mkGPS (lat lng : ℚ) : Except String GPS :=
  if ¬ (-90 ≤ lat ∧ lat ≤ 90) then .error "Latitude must be between -90 and 90"
  else if ¬ (-180 ≤ lng ∧ lng ≤ 180) then .error "Longitude must be between -180 and 180"
  else .ok { lat := lat, lng := lng }

/-- A GeoJSON Point geometry (coordinates are `[longitude, latitude]`). -/
structure GeoJSONPoint where
  coordinates : List ℚ
deriving DecidableEq

/-- A GeoJSON Feature wrapping a point geometry. -/
structure GeoJSONFeature where
  geometry : GeoJSONPoint
deriving DecidableEq

/-- `DataTransformer.transform_location_to_geojson` (lines 77-95) including
the `GeoJSONPoint.validate_coordinates` validator (app/models/common.py lines
18-27), which checks longitude before latitude. -/
def transform_location_to_geojson (lat lng : ℚ) : Except String GeoJSONFeature :=
  if ¬ (-180 ≤ lng ∧ lng ≤ 180) then .error "Longitude must be between -180 and 180"
  else if ¬ (-90 ≤ lat ∧ lat ≤ 90) then .error "Latitude must be between -90 and 90"
  else .ok ⟨⟨[lng, lat]⟩⟩

/-! ## Event-type tables (app/services/transformers.py) -/

/-- The `.value` strings of the `EventType` enumeration. -/
def eventTypeValues : List (EventType × String) :=
  [(.comms_lost, "comms_lost"), (.comms_restored, "comms_restored"),
   (.compliance_pick_up, "compliance_pick_up"), (.decommissioned, "decommissioned"),
   (.not_located, "not_located"), (.located, "located"),
   (.maintenance, "maintenance"), (.maintenance_pick_up, "maintenance_pick_up"),
   (.maintenance_end, "maintenance_end"), (.driver_cancellation, "driver_cancellation"),
   (.order_drop_off, "order_drop_off"), (.order_pick_up, "order_pick_up"),
   (.customer_cancellation, "customer_cancellation"),
   (.provider_cancellation, "provider_cancellation"), (.recommission, "recommission"),
   (.reservation_start, "reservation_start"), (.reservation_stop, "reservation_stop"),
   (.service_end, "service_end"), (.service_start, "service_start"),
   (.trip_end, "trip_end"), (.trip_enter_jurisdiction, "trip_enter_jurisdiction"),
   (.trip_leave_jurisdiction, "trip_leave_jurisdiction"), (.trip_resume, "trip_resume"),
   (.trip_start, "trip_start"), (.trip_pause, "trip_pause")]

/-- `EventType.X.value`. -/
def EventType.value (e : EventType) : String :=
  ((eventTypeValues.find? (fun p => p.1 == e)).map (·.2)).getD ""

/-- `EventType(s)`: parse a string into the enumeration (`none` models the
`ValueError` the enum constructor raises). -/
def stringToEventType (s : String) : Option EventType :=
  (eventTypeValues.find? (fun p => p.2 == s)).map (·.1)

/-- `DataTransformer._get_event_types_for_state` (lines 335-348); the lookup
table covers all nine states, so the `SERVICE_START` fallback of `.get` is
never reached. -/
def get_event_types_for_state (state : VehicleState) : List String :=
  match state with
  | .available => [EventType.value .service_start]
  | .non_operational => [EventType.value .service_end]
  | .on_trip => [EventType.value .trip_start]
  | .stopped => [EventType.value .trip_pause]
  | .non_contactable => [EventType.value .comms_lost]
  | .missing => [EventType.value .not_located]
  | .elsewhere => [EventType.value .trip_leave_jurisdiction]
  | .reserved => [EventType.value .reservation_start]
  | .removed => [EventType.value .decommissioned]

/-! ## Vehicle-status transform (DataTransformer.transform_location_to_vehicle_status) -/

/-- The seconds value of a row timestamp for the millisecond conversion at
lines 215-220; `none` models the exception that propagates out of the
transform (`ValueError` from `fromisoformat` for an unparsable string,
`AttributeError` for an absent timestamp). -/
def tsSeconds : PyTimestamp → Option ℚ
  | .missing => none
  | .str _ parsed => parsed
  | .dt t _ => some t

/-- The pydantic `Event` object embedded as `last_event` in a vehicle status
(lines 275-290).  The `battery_pct` keyword of the source is not a declared
`Event` field and pydantic drops it. -/
structure StatusLastEvent where
  event_id : UUID
  provider_id : String
  device_id : UUID
  event_types : List EventType
  vehicle_state : VehicleState
  timestamp : ℤ
  location : GPS
  publication_time : ℤ
  event_geographies : List UUID
  fuel_percent : ℤ
  data_provider_id : String
  trip_ids : List UUID
  associated_ticket : String
deriving DecidableEq

/-- The pydantic `Telemetry` object embedded as `last_telemetry` in a vehicle
status (lines 292-309). -/
structure StatusLastTelemetry where
  provider_id : String
  device_id : UUID
  telemetry_id : UUID
  timestamp : ℤ
  trip_ids : List UUID
  journey_id : UUID
  location : GPS
  battery_percent : ℤ
  fuel_percent : ℤ
  location_type : String
  stop_id : UUID
  data_provider_id : String
deriving DecidableEq

/-- Lines 222-227: `current_location` is built only when both coordinates are
present (`is not None`; zero coordinates count as present here), and its
GeoJSON validation error propagates. -/
def current_location_exc (lat lng : Option ℚ) :
    Except String (Option GeoJSONFeature) :=
  match lat, lng with
  | some la, some ln => (transform_location_to_geojson la ln).map some
  | _, _ => .ok none

/-- The `VehicleStatus` pydantic model as constructed at lines 322-333. -/
structure VehicleStatus where
  device_id : UUID
  provider_id : String
  data_provider_id : String
  vehicle_state : VehicleState
  last_event_time : ℤ
  last_event_types : List String
  last_event : StatusLastEvent
  last_telemetry : StatusLastTelemetry
  current_location : Option GeoJSONFeature
  trip_ids : Option (List UUID)
deriving DecidableEq

/-- `DataTransformer.transform_location_to_vehicle_status` (lines 190-333).
Errors model the exceptions that escape the method (missing robot_id,
timestamp failures, coordinate-validation failures).  The in-place GPS
augmentation at lines 310-318 happens before either embedded object is
serialized, and the one GPS object is shared by both, so the extended fields
are present on the final object; the model constructs that final state
directly. -/
def transform_location_to_vehicle_status (settings : Config)
    (location_data : LocationRow) (trip_data : Option (List TripRow))
    (now : ℚ) : Except String VehicleStatus :=
  if !truthyStr location_data.robot_id then .error "Location data missing robot_id"
  else
    let robot_id := (location_data.robot_id).getD ""
    let device_id := robot_id_to_device_id settings robot_id
    let vehicle_state := determine_vehicle_state location_data now
    match tsSeconds location_data.timestamp with
    | none => .error "timestamp missing or unparsable"
    | some t =>
      let last_event_time : ℤ := pyInt (t * 1000)
      let lat := location_data.latitude
      let lng := location_data.longitude
      match current_location_exc lat lng with
      | .error e => .error e
      | .ok current_location =>
        let last_event_types := get_event_types_for_state vehicle_state
        let trip_ids : List UUID :=
          match trip_data with
          | some l => if l.isEmpty then [] else l.map (generate_trip_id settings)
          | none => []
        let last_event_id := uuid5 namespaceDNS
          (status_event_id_name settings.PROVIDER_ID robot_id (toString last_event_time))
        let last_telemetry_id := uuid5 namespaceDNS
          (telemetry_id_name settings.PROVIDER_ID robot_id (toString last_event_time))
        let default_lat := lat.getD (38.9197 : ℚ)
        let default_lng := lng.getD (-77.0218 : ℚ)
        match mkGPS (pyRound7 default_lat) (pyRound7 default_lng) with
        | .error e => .error e
        | .ok g0 =>
          let gps_location : GPS :=
            { g0 with
              horizontal_accuracy := some 5,
              altitude := some 10,
              heading := some 180,
              speed := some (1 / 2),
              vertical_accuracy := some 5,
              satellites := some 12 }
          let selected0 := last_event_types.filterMap stringToEventType
          let selected1 := if selected0.isEmpty then [EventType.located] else selected0
          let selected_event_types :=
            if vehicle_state = .missing then [EventType.not_located]
            else if vehicle_state = .non_contactable then [EventType.comms_lost]
            else selected1
          let dummy_geography_id := uuid5 namespaceDNS
            (settings.PROVIDER_ID_UUID ++ ".geography.default")
          let fallback_trip := uuid5 namespaceDNS (trip_id_name settings.PROVIDER_ID_UUID robot_id)
          let last_event_obj : StatusLastEvent :=
            { event_id := last_event_id
              provider_id := settings.PROVIDER_ID_UUID
              device_id := device_id
              event_types := selected_event_types
              vehicle_state := vehicle_state
              timestamp := last_event_time
              location := gps_location
              publication_time := last_event_time
              event_geographies := [dummy_geography_id]
              fuel_percent := 50
              data_provider_id := settings.PROVIDER_ID_UUID
              trip_ids := [fallback_trip]
              associated_ticket := "support-" ++ robot_id }
          let journey_id := uuid5 namespaceDNS
            (settings.PROVIDER_ID_UUID ++ ".journey." ++ robot_id)
          let telemetry_trip_ids := if trip_ids.isEmpty then [fallback_trip] else trip_ids
          if ¬ telemetry_trip_ids.Nodup then .error "trip_ids must contain unique values"
          else
            let last_telemetry_obj : StatusLastTelemetry :=
              { provider_id := settings.PROVIDER_ID_UUID
                device_id := device_id
                telemetry_id := last_telemetry_id
                timestamp := last_event_time
                trip_ids := telemetry_trip_ids
                journey_id := journey_id
                location := gps_location
                battery_percent := 80
                fuel_percent := 50
                location_type := "street"
                stop_id := uuid5 namespaceDNS (settings.PROVIDER_ID_UUID ++ ".stop." ++ robot_id)
                data_provider_id := settings.PROVIDER_ID_UUID }
            .ok
              { device_id := device_id
                provider_id := settings.PROVIDER_ID_UUID
                data_provider_id := settings.PROVIDER_ID_UUID
                vehicle_state := vehicle_state
                last_event_time := last_event_time
                last_event_types := last_event_types
                last_event := last_event_obj
                last_telemetry := last_telemetry_obj
                current_location := current_location
                trip_ids := if trip_ids.isEmpty then none else some trip_ids }

/-! ## Trip transform (app/endpoints/trips.py) -/

/-- The inner `haversine_distance` of `transform_trip_data_to_mds` (lines
80-88): great-circle distance with R = 6 371 000 m.  Float trigonometry is
modelled over the reals. -/
noncomputable def haversine_distance (lat1 lon1 lat2 lon2 : ℝ) : ℝ :=
  let lat1r := lat1 * Real.pi / 180
  let lon1r := lon1 * Real.pi / 180
  let lat2r := lat2 * Real.pi / 180
  let lon2r := lon2 * Real.pi / 180
  let dlat := lat2r - lat1r
  let dlon := lon2r - lon1r
  let a := Real.sin (dlat / 2) ^ 2 +
    Real.cos lat1r * Real.cos lat2r * Real.sin (dlon / 2) ^ 2
  let c := 2 * Real.arcsin (Real.sqrt a)
  6371000 * c

/-- Python `int(x)` on a real value: truncation toward zero. -/
noncomputable def pyIntR (x : ℝ) : ℤ := if 0 ≤ x then ⌊x⌋ else ⌈x⌉

/-- The `Trip` pydantic model as DECLARED in app/models/trips.py (lines
37-64): `start_location` and `end_location` are typed `GeoJSONFeature` and
`distance` is an `int`.  The constant attribute objects are inlined as
fields. -/
structure Trip where
  provider_id : String
  device_id : UUID
  trip_id : UUID
  duration : ℤ
  distance : ℤ
  start_location : GeoJSONFeature
  end_location : GeoJSONFeature
  start_time : ℤ
  end_time : ℤ
  trip_type : String
  driver_type : String
  has_payload : Bool
  payment_type : String
deriving DecidableEq

/-- The keyword arguments `transform_trip_data_to_mds` passes to `Trip(...)`
(app/endpoints/trips.py lines 92-105): `GPS` objects for the two locations
(line 59: "MDS 2.0 expects GPS, not GeoJSON") and the computed, possibly
fractional, distance. -/
structure TripCtorArgs where
  provider_id : String
  device_id : UUID
  trip_id : UUID
  duration : ℤ
  distance : ℝ
  start_location : GPS
  end_location : GPS
  start_time : ℤ
  end_time : ℤ
  trip_type : String
  driver_type : String
  has_payload : Bool
  payment_type : String

/-- `Trip(...)` construction (trips.py lines 92-105 against models/trips.py
lines 37-64).  Pydantic v2 (the version this codebase requires: `ConfigDict`,
`model_dump`, `pydantic_settings`) validates the declared field types;
`start_location`/`end_location` are declared `GeoJSONFeature` but receive the
`GPS` objects of lines 60-61, which are not `GeoJSONFeature` instances and
carry no `geometry` field to coerce from, so construction raises
`ValidationError` for every row that reaches it and no `Trip` value is ever
produced. -/
def Trip_model_construct (_args : TripCtorArgs) : Except String Trip :=
  .error "ValidationError: start_location/end_location expect GeoJSONFeature, received GPS"

/-- Millisecond conversion of a trip-row time value (lines 36-45):
`datetime` values via `.timestamp()`, numbers via `int(x * 1000)` when
truthy, otherwise 0. -/
def tripTimeMs : PyTimeVal → ℤ
  | .dt t => pyInt (t * 1000)
  | .num x => if x ≠ 0 then pyInt (x * 1000) else 0
  | .missing => 0

/-- Lines 22-90 of `transform_trip_data_to_mds` (app/endpoints/trips.py): the
row checks, the GPS-coordinate validators of the two location objects, the
haversine distance computation, and the assembly of the keyword arguments
that line 92 hands to `Trip(...)`. -/
noncomputable def trip_ctor_args (settings : Config) (trip_data : TripRow) :
    Except String TripCtorArgs :=
  if !truthyStr trip_data.robot_id then .error "Trip data missing robot_id"
  else
    let robot_id := (trip_data.robot_id).getD ""
    let device_id := robot_id_to_device_id settings robot_id
    let trip_id := generate_trip_id settings trip_data
    let duration_seconds := (trip_data.trip_duration_seconds).getD 0
    let start_time_ms := tripTimeMs trip_data.trip_start
    let end_time_ms := tripTimeMs trip_data.trip_end
    match trip_data.start_latitude, trip_data.start_longitude with
    | some start_lat, some start_lng =>
      (match trip_data.end_latitude, trip_data.end_longitude with
       | some end_lat, some end_lng =>
         (match mkGPS start_lat start_lng with
          | .error e => .error e
          | .ok start_location =>
            match mkGPS end_lat end_lng with
            | .error e => .error e
            | .ok end_location =>
              let distance_meters : ℚ := (trip_data.trip_distance_meters).getD 0
              -- `if distance_meters == 0 and start_lat and start_lng and end_lat
              -- and end_lng` -- Python truthiness of a float is nonzeroness
              let distance : ℝ :=
                if distance_meters = 0 ∧ start_lat ≠ 0 ∧ start_lng ≠ 0 ∧
                    end_lat ≠ 0 ∧ end_lng ≠ 0 then
                  ((pyIntR (haversine_distance start_lat start_lng end_lat end_lng) : ℤ) : ℝ)
                else (distance_meters : ℝ)
              .ok
                { provider_id := settings.PROVIDER_ID_UUID
                  device_id := device_id
                  trip_id := trip_id
                  duration := pyInt duration_seconds
                  distance := distance
                  start_location := start_location
                  end_location := end_location
                  start_time := start_time_ms
                  end_time := end_time_ms
                  trip_type := "delivery"
                  driver_type := "autonomous"
                  has_payload := true
                  payment_type := "mobile_app" })
       | _, _ => .error "Trip data missing end location coordinates")
    | _, _ => .error "Trip data missing start location coordinates"

/-- `transform_trip_data_to_mds` (app/endpoints/trips.py lines 22-105): the
argument computation followed by the `Trip(...)` construction of line 92,
whose pydantic validation fails for every row (see `Trip_model_construct`),
so the function raises for each row that passes the coordinate checks and
never returns a `Trip`. -/
noncomputable def transform_trip_data_to_mds (settings : Config) (trip_data : TripRow) :
    Except String Trip :=
  (trip_ctor_args settings trip_data).bind Trip_model_construct

/-! ## Hourly endpoints (app/endpoints/trips.py, app/endpoints/events.py) -/

/-- `datetime(2021, 5, 1)` in epoch seconds: the fixed operations-start used
by both hourly endpoints. -/
def operations_start : ℚ := 1619827200

/-- Outcome of an hourly endpoint: an error-ish response (status code plus
the machine-readable code of its body) or the transformed row list. -/
inductive EndpointResult (α : Type) where
  | err (status_code : Nat) (code : String)
  | ok (items : List α)

/-- `get_trips` (app/endpoints/trips.py lines 114-207) after
authentication: `end_time_parsed` is the `datetime.strptime` oracle for the
`end_time` query parameter (`none` = `ValueError` = 400), `now` is
`datetime.utcnow()`, and `trip_rows` the warehouse rows.  The
data-availability / 202 block is commented out in the source, so rows are
fetched and transformed unconditionally, one bad row never aborting the
batch. -/
noncomputable def get_trips (settings : Config) (now : ℚ)
    (end_time_parsed : Option ℚ) (trip_rows : List TripRow) : EndpointResult Trip :=
  match end_time_parsed with
  | none => .err 400 "invalid_end_time"
  | some end_time_dt =>
    if end_time_dt ≥ now then .err 404 "future_time"
    else if end_time_dt < operations_start then .err 404 "no_operation"
    else .ok (trip_rows.filterMap (fun r => (transform_trip_data_to_mds settings r).toOption))

/-- The `Event` pydantic model as constructed by the events endpoints
(app/endpoints/events.py lines 209-218). -/
structure Event where
  event_id : UUID
  provider_id : String
  device_id : UUID
  event_types : List EventType
  vehicle_state : VehicleState
  timestamp : ℤ
  publication_time : ℤ
  location : Option GeoJSONFeature
deriving DecidableEq

/-- Millisecond event time (events.py lines 181-185): `datetime` values via
`.timestamp()`, other values via `fromisoformat(str(...))`; `none` models the
exception (absent value or unparsable string) that makes the row be
skipped. -/
def eventTimeMs : PyTimestamp → Option ℤ
  | .missing => none
  | .str _ parsed => parsed.map (fun t => pyInt (t * 1000))
  | .dt t _ => some (pyInt (t * 1000))

/-- One iteration of the per-row loop of `get_historical_events` (lines
171-222): `none` models `continue`, both for the explicit missing-robot_id
skip and for the catch-and-skip `except` around the row transform (time parse
failure, coordinate-validation failure, and the `Event` validator requiring a
location when no geographies are passed). -/
def transform_event_row (settings : Config) (publication_now_ms : ℤ)
    (event_data : EventRow) : Option Event :=
  if !truthyStr event_data.robot_id then none
  else
    let robot_id := (event_data.robot_id).getD ""
    let device_id := robot_id_to_device_id settings robot_id
    match eventTimeMs event_data.event_time with
    | none => none
    | some event_time_ms =>
      let locExc : Except String (Option GeoJSONFeature) :=
        match event_data.latitude, event_data.longitude with
        | some lat, some lng => (transform_location_to_geojson lat lng).map some
        | _, _ => .ok none
      match locExc with
      | .error _ => none
      | .ok event_location =>
        let event_type_str := (event_data.event_type).getD "other"
        let etvs : List EventType × VehicleState :=
          if event_type_str = "trip_start" then ([.trip_start], .on_trip)
          else if event_type_str = "trip_end" then ([.trip_end], .available)
          else ([.located], .available)
        let event_id := generate_event_id settings event_data
        match event_location with
        | none => none
        | some loc =>
          some
            { event_id := event_id
              provider_id := settings.PROVIDER_ID_UUID
              device_id := device_id
              event_types := etvs.1
              vehicle_state := etvs.2
              timestamp := event_time_ms
              publication_time := publication_now_ms
              location := some loc }

/-- The whole per-row loop of `get_historical_events`. -/
def events_from_rows (settings : Config) (publication_now_ms : ℤ)
    (events_data : List EventRow) : List Event :=
  events_data.filterMap (transform_event_row settings publication_now_ms)

/-- `get_historical_events` (app/endpoints/events.py lines 83-226) after
authentication: `event_time_parsed` is the `strptime` oracle for the
`event_time` query parameter, `data_available` the
`check_data_availability` result.  The future-hour check is commented out in
the source. -/
def get_historical_events (settings : Config) (now : ℚ)
    (event_time_parsed : Option ℚ) (data_available : Bool)
    (events_data : List EventRow) : EndpointResult Event :=
  match event_time_parsed with
  | none => .err 400 "invalid_event_time"
  | some event_time_dt =>
    if event_time_dt < operations_start then .err 404 "no_operation"
    else if (now - event_time_dt) / 3600 < 2 ∧ data_available = false then
      .err 202 "data_processing"
    else .ok (events_from_rows settings (pyInt (now * 1000)) events_data)

end MDS

namespace MDS

/-! ## Theorems -/

/-- C4: the claim states that at exactly 300 seconds of age the classifier
returns NON_OPERATIONAL and at exactly 3600 seconds NON_CONTACTABLE.  The code
uses strict comparisons (`time_diff > 3600`, `time_diff > 300`), so at exactly
300 seconds it returns AVAILABLE and at exactly 3600 seconds NON_OPERATIONAL:
the claim is false at the row whose timestamp is 0 observed at now = 300
and now = 3600. -/
theorem C4_counterexample :
    ¬ (determine_vehicle_state ⟨some "4F403", .dt 0 "1970-01-01T00:00:00", none, none⟩ 300
         = .non_operational ∧
       determine_vehicle_state ⟨some "4F403", .dt 0 "1970-01-01T00:00:00", none, none⟩ 3600
         = .non_contactable) := by
  have h300 : determine_vehicle_state
      ⟨some "4F403", .dt 0 "1970-01-01T00:00:00", none, none⟩ 300 = .available := by
    norm_num [determine_vehicle_state, stateFromAge]
  rintro ⟨h1, -⟩
  rw [h300] at h1
  exact absurd h1 (by simp)

/-- C4 (amended): at exactly 300 seconds of age the classifier returns
AVAILABLE, at exactly 3600 seconds NON_OPERATIONAL, and at 0 seconds
AVAILABLE, for every row carrying a parsed timestamp. -/
theorem C4_boundary_ages (t now : ℚ) (r : String) (row : LocationRow)
    (hts : row.timestamp = .dt t r) :
    (now - t = 300 → determine_vehicle_state row now = .available) ∧
    (now - t = 3600 → determine_vehicle_state row now = .non_operational) ∧
    (now - t = 0 → determine_vehicle_state row now = .available) := by
  refine ⟨fun h => ?_, fun h => ?_, fun h => ?_⟩ <;>
    simp [determine_vehicle_state, hts, stateFromAge, h] <;> norm_num

/-- C4 (amended) witness at a concrete row. -/
theorem C4_boundary_ages_witness :
    determine_vehicle_state ⟨some "4F403", .dt 0 "1970-01-01T00:00:00", none, none⟩ 300
      = .available :=
  (C4_boundary_ages 0 300 "1970-01-01T00:00:00"
      ⟨some "4F403", .dt 0 "1970-01-01T00:00:00", none, none⟩ rfl).1 (by norm_num)

/-- C5: the classifier returns MISSING when no (truthy) timestamp is present,
NON_CONTACTABLE when the timestamp string does not parse, and otherwise, with
age = now - timestamp: NON_CONTACTABLE for age > 3600 s, NON_OPERATIONAL for
300 s < age ≤ 3600 s, and AVAILABLE otherwise.  ("No timestamp present" is
Python falsiness: absent or the empty string.) -/
theorem C5_classifier_cases (row : LocationRow) (now : ℚ) :
    (row.timestamp.truthy = false → determine_vehicle_state row now = .missing) ∧
    (∀ raw, row.timestamp = .str raw none → raw ≠ "" →
        determine_vehicle_state row now = .non_contactable) ∧
    (∀ t, ((∃ raw, raw ≠ "" ∧ row.timestamp = .str raw (some t)) ∨
           (∃ r, row.timestamp = .dt t r)) →
        ((3600 < now - t → determine_vehicle_state row now = .non_contactable) ∧
         (300 < now - t → now - t ≤ 3600 →
            determine_vehicle_state row now = .non_operational) ∧
         (now - t ≤ 300 → determine_vehicle_state row now = .available))) := by
  refine ⟨?_, ?_, ?_⟩
  · intro h
    rcases hts : row.timestamp with _ | ⟨raw, parsed⟩ | ⟨t, r⟩
    · simp [determine_vehicle_state, hts]
    · simp only [PyTimestamp.truthy, hts, bne_eq_false_iff_eq] at h
      simp [determine_vehicle_state, hts, h]
    · simp [PyTimestamp.truthy, hts] at h
  · intro raw hts hne
    simp [determine_vehicle_state, hts, hne]
  · intro t hdisj
    have hcls : determine_vehicle_state row now = stateFromAge (now - t) := by
      rcases hdisj with ⟨raw, hne, hts⟩ | ⟨r, hts⟩
      · simp [determine_vehicle_state, hts, hne]
      · simp [determine_vehicle_state, hts]
    rw [hcls]
    refine ⟨fun h1 => ?_, fun h1 h2 => ?_, fun h1 => ?_⟩
    · unfold stateFromAge
      rw [if_pos h1]
    · unfold stateFromAge
      rw [if_neg (by linarith), if_pos h1]
    · unfold stateFromAge
      rw [if_neg (by linarith), if_neg (by linarith)]

/-- C5 witness at a concrete row: a parsable string timestamp 4000 seconds
old classifies as NON_CONTACTABLE. -/
theorem C5_classifier_cases_witness :
    determine_vehicle_state ⟨some "4F403", .str "1970-01-01T00:00:00" (some 0), none, none⟩ 4000
      = .non_contactable :=
  ((C5_classifier_cases ⟨some "4F403", .str "1970-01-01T00:00:00" (some 0), none, none⟩
      4000).2.2 0 (Or.inl ⟨"1970-01-01T00:00:00", by simp, rfl⟩)).1 (by norm_num)

/-- C2: with DEBUG set and not under the test runner, a request to a
non-public, non-OPTIONS path with neither an Authorization nor an X-API-Key
header passes straight through with a development identity claim carrying the
configured provider id. -/
theorem C2_debug_bypass (settings : Config) (is_testing : Bool)
    (store : APIKeyStore) (jwt_validate : JWTValidator) (request : Request)
    (hpub : request.path ∉ public_endpoints)
    (hopt : request.method ≠ "OPTIONS")
    (hdbg : settings.DEBUG = true)
    (htest : is_testing = false)
    (hauth : request.authorization = none)
    (hkey : request.x_api_key = none) :
    dispatch settings is_testing store jwt_validate request
      = .next (some (.development settings.PROVIDER_ID ["read"])) := by
  unfold dispatch
  rw [if_neg hpub, if_neg hopt,
    if_pos (by simp [hdbg, htest, hauth, hkey, truthyStr])]

/-- C2 witness at a concrete request. -/
theorem C2_debug_bypass_witness :
    dispatch ⟨true, "kiwibot-delivery-robots", "p-uuid"⟩ false default_api_keys
        (fun _ => .exn "unreachable") ⟨"/vehicles/", "GET", none, none⟩
      = .next (some (.development "kiwibot-delivery-robots" ["read"])) :=
  C2_debug_bypass _ _ _ _ _ (by decide) (by decide) rfl rfl rfl rfl

/-- C3: with the development bypass not active (DEBUG unset, or running under
the test runner), a request to a non-public, non-OPTIONS path with neither an
Authorization nor an X-API-Key header is rejected 401 with error code
`authentication_required`. -/
theorem C3_authentication_required (settings : Config) (is_testing : Bool)
    (store : APIKeyStore) (jwt_validate : JWTValidator) (request : Request)
    (hpub : request.path ∉ public_endpoints)
    (hopt : request.method ≠ "OPTIONS")
    (hdev : settings.DEBUG = false ∨ is_testing = true)
    (hauth : request.authorization = none)
    (hkey : request.x_api_key = none) :
    dispatch settings is_testing store jwt_validate request
      = .reject 401 "authentication_required"
          "Authentication required. Provide either X-API-Key header or Authorization: Bearer <token>" := by
  unfold dispatch
  rw [if_neg hpub, if_neg hopt, if_neg ?hd, if_neg ?hk, if_neg ?ha]
  case hd => rcases hdev with h | h <;> simp [h]
  case hk => simp [hkey, truthyStr]
  case ha => simp [hauth, truthyStr]

/-- C6: the claim states that a status row with a missing coordinate gets the
configured fallback coordinate so that the resulting VehicleStatus "never
carries an absent/null location".  The fallback is only applied to the GPS
object embedded in `last_event`/`last_telemetry`; the top-level
`current_location` field of the very same VehicleStatus is left `None`
whenever latitude or longitude is missing (lines 223-227). -/
theorem C6_counterexample :
    (transform_location_to_vehicle_status ⟨false, "kiwibot-delivery-robots", "p-uuid"⟩
        ⟨some "4F403", .dt 0 "1970-01-01T00:00:00", none, none⟩ none 0).map
      VehicleStatus.current_location = .ok none := by
  unfold transform_location_to_vehicle_status
  norm_num [truthyStr, tsSeconds, mkGPS, pyRound7, roundHalfEven, pyInt,
    current_location_exc, List.nodup_singleton]
  rfl

/-- C6 (amended): for a row with a robot_id and parsable timestamp whose
latitude or longitude is missing (the present coordinate rounding into
range), the transform succeeds, the embedded last-event and last-telemetry
GPS carries the fallback coordinate (38.9197 / -77.0218) in place of each
missing side, and the top-level `current_location` is left absent. -/
theorem C6_gps_fallback (settings : Config) (row : LocationRow) (t now : ℚ)
    (hrid : truthyStr row.robot_id = true)
    (hts : tsSeconds row.timestamp = some t)
    (hmiss : row.latitude = none ∨ row.longitude = none)
    (hlat : -90 ≤ pyRound7 ((row.latitude).getD (38.9197 : ℚ)) ∧
      pyRound7 ((row.latitude).getD (38.9197 : ℚ)) ≤ 90)
    (hlng : -180 ≤ pyRound7 ((row.longitude).getD (-77.0218 : ℚ)) ∧
      pyRound7 ((row.longitude).getD (-77.0218 : ℚ)) ≤ 180) :
    ∃ s, transform_location_to_vehicle_status settings row none now = .ok s ∧
      s.last_event.location.lat = pyRound7 ((row.latitude).getD (38.9197 : ℚ)) ∧
      s.last_event.location.lng = pyRound7 ((row.longitude).getD (-77.0218 : ℚ)) ∧
      s.last_telemetry.location = s.last_event.location ∧
      s.current_location = none := by
  obtain ⟨rid, ts, la, ln⟩ := row
  simp only at hrid hts hmiss hlat hlng
  have hloc : current_location_exc la ln = .ok none := by
    rcases hmiss with h | h
    · subst h; cases ln <;> rfl
    · subst h; cases la <;> rfl
  unfold transform_location_to_vehicle_status
  simp only [hrid, Bool.not_true, Bool.false_eq_true, if_false, hts, hloc]
  unfold mkGPS
  rw [if_neg (not_not_intro hlat), if_neg (not_not_intro hlng)]
  norm_num [List.nodup_singleton]

/-- C6 (amended) witness at a concrete row missing both coordinates. -/
theorem C6_gps_fallback_witness :
    ∃ s, transform_location_to_vehicle_status ⟨false, "kiwibot-delivery-robots", "p-uuid"⟩
        ⟨some "4F403", .dt 0 "1970-01-01T00:00:00", none, none⟩ none 0 = .ok s ∧
      s.last_event.location.lat
        = pyRound7 (((none : Option ℚ)).getD (38.9197 : ℚ)) ∧
      s.last_event.location.lng
        = pyRound7 (((none : Option ℚ)).getD (-77.0218 : ℚ)) ∧
      s.last_telemetry.location = s.last_event.location ∧
      s.current_location = none :=
  C6_gps_fallback ⟨false, "kiwibot-delivery-robots", "p-uuid"⟩
    ⟨some "4F403", .dt 0 "1970-01-01T00:00:00", none, none⟩ 0 0
    (by decide) rfl (Or.inl rfl) (by norm_num [pyRound7, roundHalfEven])
    (by norm_num [pyRound7, roundHalfEven])

/-- C7: the claim describes the intended behavior (spec 4.3, Scenario C, and
the endpoint comment at trips.py line 59 "MDS 2.0 expects GPS, not GeoJSON"),
but the code cannot deliver it: app/models/trips.py lines 45-46 declare
`start_location`/`end_location` as `GeoJSONFeature` while trips.py lines
60-61 pass `GPS` objects, so the `Trip(...)` construction raises
`ValidationError` for every row reaching it and `transform_trip_data_to_mds`
never returns a Trip.  At the Scenario-C row the haversine distance (R =
6 371 000 m) is computed into the constructor arguments, the construction
then fails, and the /trips batch for that hour comes back empty. -/
theorem C7_trip_construction_fails (settings : Config) (row : TripRow) :
    (transform_trip_data_to_mds settings row).toOption = none ∧
    (trip_ctor_args settings
        ⟨some "4F403", some "42", none, .num 1, .num 2, none,
          some (37.7749 : ℚ), some (-122.4194 : ℚ),
          some (37.7849 : ℚ), some (-122.4094 : ℚ), none⟩).map TripCtorArgs.distance
      = .ok ((pyIntR (haversine_distance ((37.7749 : ℚ) : ℝ) ((-122.4194 : ℚ) : ℝ)
          ((37.7849 : ℚ) : ℝ) ((-122.4094 : ℚ) : ℝ)) : ℤ) : ℝ) ∧
    transform_trip_data_to_mds settings
        ⟨some "4F403", some "42", none, .num 1, .num 2, none,
          some (37.7749 : ℚ), some (-122.4194 : ℚ),
          some (37.7849 : ℚ), some (-122.4094 : ℚ), none⟩
      = .error "ValidationError: start_location/end_location expect GeoJSONFeature, received GPS" ∧
    get_trips settings 1700000000 (some 1699996400)
        [⟨some "4F403", some "42", none, .num 1, .num 2, none,
          some (37.7749 : ℚ), some (-122.4194 : ℚ),
          some (37.7849 : ℚ), some (-122.4094 : ℚ), none⟩]
      = .ok [] := by
  have h1 : ∀ r : TripRow, (transform_trip_data_to_mds settings r).toOption = none := by
    intro r
    unfold transform_trip_data_to_mds
    cases h : trip_ctor_args settings r with
    | error e => simp [h, Except.bind, Except.toOption]
    | ok a => simp [h, Except.bind, Trip_model_construct, Except.toOption]
  have h2 : (trip_ctor_args settings
        ⟨some "4F403", some "42", none, .num 1, .num 2, none,
          some (37.7749 : ℚ), some (-122.4194 : ℚ),
          some (37.7849 : ℚ), some (-122.4094 : ℚ), none⟩).map TripCtorArgs.distance
      = .ok ((pyIntR (haversine_distance ((37.7749 : ℚ) : ℝ) ((-122.4194 : ℚ) : ℝ)
          ((37.7849 : ℚ) : ℝ) ((-122.4094 : ℚ) : ℝ)) : ℤ) : ℝ) := by
    unfold trip_ctor_args
    norm_num [truthyStr, mkGPS, tripTimeMs]
    rfl
  have h3 : transform_trip_data_to_mds settings
        ⟨some "4F403", some "42", none, .num 1, .num 2, none,
          some (37.7749 : ℚ), some (-122.4194 : ℚ),
          some (37.7849 : ℚ), some (-122.4094 : ℚ), none⟩
      = .error "ValidationError: start_location/end_location expect GeoJSONFeature, received GPS" := by
    unfold transform_trip_data_to_mds
    cases h : trip_ctor_args settings
        ⟨some "4F403", some "42", none, .num 1, .num 2, none,
          some (37.7749 : ℚ), some (-122.4194 : ℚ),
          some (37.7849 : ℚ), some (-122.4094 : ℚ), none⟩ with
    | error e => rw [h] at h2; simp [Except.map] at h2
    | ok a => simp [h, Except.bind, Trip_model_construct]
  refine ⟨h1 row, h2, h3, ?_⟩
  unfold get_trips
  dsimp only
  rw [if_neg (by norm_num), if_neg (by norm_num [operations_start])]
  simp [List.filterMap_cons, h1]


/-- Helper for C8: the per-row event transform emits the same event id (and
the same skip decision) whatever the request time is; only
`publication_time` depends on it. -/
theorem transform_event_row_id_indep (settings : Config) (n1 n2 : ℤ) (r : EventRow) :
    (transform_event_row settings n1 r).map Event.event_id
      = (transform_event_row settings n2 r).map Event.event_id := by
  obtain ⟨rid, et, ety, la, ln⟩ := r
  unfold transform_event_row
  cases htr : truthyStr rid with
  | false => simp [htr]
  | true =>
    simp only [htr, Bool.not_true, Bool.false_eq_true, if_false]
    cases hms : eventTimeMs et with
    | none => simp [hms]
    | some ms =>
      simp only [hms]
      cases la with
      | none => cases ln <;> simp
      | some lav =>
        cases ln with
        | none => simp
        | some lnv =>
          cases hg : transform_location_to_geojson lav lnv with
          | error e => simp [hg, Except.map]
          | ok f => simp [hg, Except.map]

/-- C8: event-id derivation is deterministic.  Two rows agreeing on robot_id,
event_time (as rendered into the f-string) and event_type derive the same
UUID whatever their other fields; consequently two runs of the
/events/historical row loop over the same upstream rows at different request
times produce identical event_id lists. -/
theorem C8_event_id_stable (settings : Config) (d1 d2 : EventRow)
    (hr : d1.robot_id = d2.robot_id)
    (ht : d1.event_time.asPyStr = d2.event_time.asPyStr)
    (hy : d1.event_type = d2.event_type)
    (rows : List EventRow) (now1 now2 : ℤ) :
    generate_event_id settings d1 = generate_event_id settings d2 ∧
    (events_from_rows settings now1 rows).map Event.event_id
      = (events_from_rows settings now2 rows).map Event.event_id := by
  constructor
  · unfold generate_event_id
    rw [hr, ht, hy]
  · simp only [events_from_rows]
    rw [List.map_filterMap, List.map_filterMap]
    exact List.filterMap_congr
      (fun r _ => transform_event_row_id_indep settings now1 now2 r)

/-- C8 witness: two rows identical on the three id inputs but with different
coordinates, and one row list transformed at two different request times. -/
theorem C8_event_id_stable_witness :
    generate_event_id ⟨false, "kiwibot-delivery-robots", "p-uuid"⟩
        ⟨some "4F403", .str "2024-01-01T10:00:00" (some 1704103200), some "trip_start",
          some 1, some 2⟩
      = generate_event_id ⟨false, "kiwibot-delivery-robots", "p-uuid"⟩
        ⟨some "4F403", .str "2024-01-01T10:00:00" (some 1704103200), some "trip_start",
          some 3, some 4⟩ ∧
    (events_from_rows ⟨false, "kiwibot-delivery-robots", "p-uuid"⟩ 0
        [⟨some "4F403", .str "2024-01-01T10:00:00" (some 1704103200), some "trip_start",
          some 1, some 2⟩]).map Event.event_id
      = (events_from_rows ⟨false, "kiwibot-delivery-robots", "p-uuid"⟩ 1000
        [⟨some "4F403", .str "2024-01-01T10:00:00" (some 1704103200), some "trip_start",
          some 1, some 2⟩]).map Event.event_id :=
  C8_event_id_stable ⟨false, "kiwibot-delivery-robots", "p-uuid"⟩
    ⟨some "4F403", .str "2024-01-01T10:00:00" (some 1704103200), some "trip_start",
      some 1, some 2⟩
    ⟨some "4F403", .str "2024-01-01T10:00:00" (some 1704103200), some "trip_start",
      some 3, some 4⟩
    rfl rfl rfl
    [⟨some "4F403", .str "2024-01-01T10:00:00" (some 1704103200), some "trip_start",
      some 1, some 2⟩] 0 1000

/-- C9: the claim states that both hourly endpoints return 202
`data_processing` for a recent hour whose data is not materialized.  The
availability check and the whole 202 branch of `/trips` are commented out in
the source (trips.py lines 163-176), so `/trips` serves the hour normally
(here: an empty batch) while `/events/historical` does return 202 on the
same inputs. -/
theorem C9_counterexample :
    get_trips ⟨false, "kiwibot-delivery-robots", "p-uuid"⟩ 1700000000
        (some 1699996400) [] = .ok [] ∧
    get_historical_events ⟨false, "kiwibot-delivery-robots", "p-uuid"⟩ 1700000000
        (some 1699996400) false [] = .err 202 "data_processing" := by
  constructor
  · unfold get_trips
    norm_num [operations_start]
  · unfold get_historical_events
    norm_num [operations_start]

/-- C9 (amended): both endpoints answer 400 to a malformed hour and 404
`no_operation` to an hour before the operations start (2021-05-01, for /trips
additionally subject to its earlier future-hour check); the 202
`data_processing` response for a recent unmaterialized hour exists only on
/events/historical, while /trips transforms whatever rows come back
regardless of data availability. -/
theorem C9_time_window (settings : Config) (now h : ℚ) (davail : Bool)
    (trip_rows : List TripRow) (event_rows : List EventRow) :
    (get_trips settings now none trip_rows = .err 400 "invalid_end_time") ∧
    (h < operations_start → h < now →
      get_trips settings now (some h) trip_rows = .err 404 "no_operation") ∧
    (get_historical_events settings now none davail event_rows
      = .err 400 "invalid_event_time") ∧
    (h < operations_start →
      get_historical_events settings now (some h) davail event_rows
        = .err 404 "no_operation") ∧
    (operations_start ≤ h → (now - h) / 3600 < 2 →
      get_historical_events settings now (some h) false event_rows
        = .err 202 "data_processing") ∧
    (operations_start ≤ h → h < now →
      get_trips settings now (some h) trip_rows
        = .ok (trip_rows.filterMap
            (fun r => (transform_trip_data_to_mds settings r).toOption))) := by
  refine ⟨rfl, fun h1 h2 => ?_, rfl, fun h1 => ?_, fun h1 h2 => ?_, fun h1 h2 => ?_⟩
  · unfold get_trips
    dsimp only
    rw [if_neg (not_le.mpr h2), if_pos h1]
  · unfold get_historical_events
    dsimp only
    rw [if_pos h1]
  · unfold get_historical_events
    dsimp only
    rw [if_neg (not_lt.mpr h1), if_pos ⟨h2, rfl⟩]
  · unfold get_trips
    dsimp only
    rw [if_neg (not_le.mpr h2), if_neg (not_lt.mpr h1)]

/-- C9 (amended) witness: the 202 branch of /events/historical at a concrete
recent hour. -/
theorem C9_time_window_witness :
    get_historical_events ⟨false, "kiwibot-delivery-robots", "p-uuid"⟩ 1619830800
        (some 1619827200) false [] = .err 202 "data_processing" :=
  ((C9_time_window ⟨false, "kiwibot-delivery-robots", "p-uuid"⟩ 1619830800 1619827200
      false [] []).2.2.2.2.1) (le_refl _) (by norm_num)

/-- Helper for C10: strings are injective images of their character lists. -/
theorem string_data_append (x y : String) : (x ++ y).data = x.data ++ y.data := rfl

/-- Helper for C10: two tagged concatenations with a common prefix differ
whenever the tags differ at some position within both. -/
theorem tag_append_ne (p a b k1 k2 : String) (i : Nat)
    (ha : i < a.data.length) (hb : i < b.data.length)
    (hne : ¬ (a.data[i]? = b.data[i]?)) :
    ¬ (p ++ (a ++ k1) = p ++ (b ++ k2)) := by
  intro hEq
  have hd := congrArg String.data hEq
  rw [string_data_append, string_data_append, string_data_append,
    string_data_append] at hd
  have h2 := List.append_cancel_left hd
  have h3 := congrArg (fun l => l[i]?) h2
  simp only at h3
  rw [List.getElem?_append_left ha, List.getElem?_append_left hb] at h3
  exact hne h3

/-- Helper for C10: reassociation of string concatenation. -/
theorem string_append_assoc (x y z : String) : (x ++ y) ++ z = x ++ (y ++ z) := by
  show String.mk (x.data ++ y.data ++ z.data) = String.mk (x.data ++ (y.data ++ z.data))
  rw [List.append_assoc]

/-- C10: the claim extends the tag-based non-collision guarantee to device
ids, but `robot_id_to_device_id` hashes `f"{provider}.{robot_id}"` with no
class tag: a robot whose raw identifier is literally `trip.42` hashes the
very same name string as the trip id of job key `42`, so the derived UUIDs
coincide exactly. -/
theorem C10_counterexample :
    robot_id_to_device_id ⟨false, "kiwibot-delivery-robots", "kiwibot-delivery-robots"⟩
        "trip.42"
      = generate_trip_id ⟨false, "kiwibot-delivery-robots", "kiwibot-delivery-robots"⟩
          ⟨some "4F403", some "42", none, .missing, .missing, none, none, none,
            none, none, none⟩ := by
  unfold robot_id_to_device_id generate_trip_id
  exact congrArg (uuid5 namespaceDNS) (by decide)

/-- C10 (amended): among the three tagged identifier classes the `uuid5`
input names are pairwise distinct for every provider namespace and all
underlying keys (so those ids can only collide through a SHA-1 collision);
the device-id derivation carries no tag and does collide with the trip
class (see the counterexample). -/
theorem C10_tagged_namespaces (p job r t ty r2 t2 : String) :
    (trip_id_name p job == event_id_name p r t ty) = false ∧
    (trip_id_name p job == telemetry_id_name p r2 t2) = false ∧
    (event_id_name p r t ty == telemetry_id_name p r2 t2) = false := by
  refine ⟨?_, ?_, ?_⟩ <;> rw [beq_eq_false_iff_ne]
  · unfold trip_id_name event_id_name
    simp only [string_append_assoc]
    exact tag_append_ne p ".trip." ".event." _ _ 1 (by decide) (by decide) (by decide)
  · unfold trip_id_name telemetry_id_name
    simp only [string_append_assoc]
    exact tag_append_ne p ".trip." ".telemetry." _ _ 2 (by decide) (by decide) (by decide)
  · unfold event_id_name telemetry_id_name
    simp only [string_append_assoc]
    exact tag_append_ne p ".event." ".telemetry." _ _ 1 (by decide) (by decide) (by decide)

/-- C3 witness at a concrete request. -/
theorem C3_authentication_required_witness :
    dispatch ⟨false, "kiwibot-delivery-robots", "p-uuid"⟩ false default_api_keys
        (fun _ => .exn "unreachable") ⟨"/vehicles/", "GET", none, none⟩
      = .reject 401 "authentication_required"
          "Authentication required. Provide either X-API-Key header or Authorization: Bearer <token>" :=
  C3_authentication_required _ _ _ _ _ (by decide) (by decide) (Or.inl rfl) rfl rfl

end MDS
